import Mathlib

/-!
Shallow embedding of `src/services/whisper_transcribe.py`.

The script is a CLI wrapper: it registers a dependency directory, imports the
inference library, selects a compute device, loads a fixed Whisper model,
transcribes one audio file, reshapes the result, and prints one JSON object to
standard output.  All external effects (filesystem, imports, CUDA probe, the
model itself) are modelled as fields of an `Env` record describing their
observable outcome for the run; the script's own control flow and data
reshaping are translated line by line.
-/

/-- A Python scalar value as it can appear in the model result: a string, an
integer, or a float.  A float is identified by its shortest decimal
representation, which is exactly what Python's `str` and `json.dumps`
print for it, so no float arithmetic is needed (the script performs none). -/
inductive PyVal where
  | str (s : String)
  | int (i : Int)
  | float (repr : String)
deriving DecidableEq

/-- Python `str(v)`: identity on strings, decimal notation on ints, and the
float's repr. -/
def PyVal.pyStr : PyVal → String
  | .str s => s
  | .int i => toString i
  | .float r => r

/-- Whether the value is numeric (an int or a float). -/
def PyVal.isNum : PyVal → Bool
  | .str _ => false
  | .int _ => true
  | .float _ => true

/-- Whether an optional dict entry is numeric, counting an absent entry as
numeric because the script substitutes the int `0` for it. -/
def numOpt : Option PyVal → Bool
  | none => true
  | some v => v.isNum

/-- A JSON value as the script builds it before calling `json.dumps`:
a Python scalar, a list, or a dict (insertion-ordered, as in Python). -/
inductive JVal where
  | prim (v : PyVal)
  | arr (xs : List JVal)
  | obj (fields : List (String × JVal))

/-- Top-level keys of a JSON object, in insertion order. -/
def JVal.keys : JVal → List String
  | .obj fs => fs.map Prod.fst
  | _ => []

/-- Field access on a JSON object. -/
def JVal.getField : JVal → String → Option JVal
  | .obj fs, k => fs.lookup k
  | _, _ => none

/-- Hex digit used by `json.dumps` in `\u00xx` escapes (lowercase). -/
def hexDigit (n : Nat) : Char :=
  if n < 10 then Char.ofNat (48 + n) else Char.ofNat (87 + n)

/-- How `json.dumps(..., ensure_ascii=False)` renders one character of a
string: it escapes the backslash, the double quote and control characters,
and passes every other character through unchanged (non-ASCII included). -/
def escChar (c : Char) : String :=
  if c = '\\' then "\\\\"
  else if c = '\"' then "\\\""
  else if c = '\n' then "\\n"
  else if c = '\t' then "\\t"
  else if c = '\r' then "\\r"
  else if c.val.toNat = 8 then "\\b"
  else if c.val.toNat = 12 then "\\f"
  else if c.val.toNat < 32 then
    "\\u00" ++ String.singleton (hexDigit (c.val.toNat / 16))
      ++ String.singleton (hexDigit (c.val.toNat % 16))
  else String.singleton c

/-- JSON rendering of a string literal under `ensure_ascii=False`. -/
def encodeJsonString (s : String) : String :=
  "\"" ++ String.join (s.data.map escChar) ++ "\""

/-- JSON rendering of a Python scalar. -/
def PyVal.jsonDump : PyVal → String
  | .str s => encodeJsonString s
  | .int i => toString i
  | .float r => r

mutual

/-- The serialization `json.dumps(v, ensure_ascii=False)` with Python's
default separators. -/
def JVal.dump : JVal → String
  | .prim v => v.jsonDump
  | .arr xs => "[" ++ JVal.dumpList xs ++ "]"
  | .obj fs => "\x7b" ++ JVal.dumpFields fs ++ "\x7d"

/-- Comma-joined rendering of array elements. -/
def JVal.dumpList : List JVal → String
  | [] => ""
  | [x] => JVal.dump x
  | x :: y :: xs => JVal.dump x ++ ", " ++ JVal.dumpList (y :: xs)

/-- Comma-joined rendering of object entries. -/
def JVal.dumpFields : List (String × JVal) → String
  | [] => ""
  | [(k, v)] => encodeJsonString k ++ ": " ++ JVal.dump v
  | (k, v) :: f :: fs =>
      encodeJsonString k ++ ": " ++ JVal.dump v ++ ", " ++ JVal.dumpFields (f :: fs)

end

/-- A word record of the model result, seen through the keys the script reads
(`text`, `start`, `end`); `none` models an absent key, the `get` defaults are
applied at the use sites.  The `end` key is named `stop` here because `end`
is a Lean keyword.  Unmapped keys are irrelevant to the word loop and carried
in `extra`. -/
structure RawWord where
  text : Option String := none
  start : Option PyVal := none
  stop : Option PyVal := none
  extra : List (String × PyVal) := []

/-- A segment record of the model result, through the keys the script reads:
`text`, `start`, `end` (named `stop`), `words`, plus the unmapped keys in
`extra`, which the reshaping drops. -/
structure RawSegment where
  text : Option String := none
  start : Option PyVal := none
  stop : Option PyVal := none
  words : Option (List RawWord) := none
  extra : List (String × PyVal) := []

/-- The dict returned by `model.transcribe`: a `text` entry (read with a
default), the required `segments` list, and unmapped keys in `extra`. -/
structure RawResult where
  text : Option String := none
  segments : List RawSegment := []
  extra : List (String × PyVal) := []

/-- Lines 65-70 of the script: the output dict for one word.  `text` is
trimmed; `start` and `end` go through Python `str`, defaulting to int `0`. -/
def convertWord (w : RawWord) : List (String × JVal) :=
  [("text", .prim (.str ((w.text.getD "").trim))),
   ("start", .prim (.str ((w.start.getD (.int 0)).pyStr))),
   ("end", .prim (.str ((w.stop.getD (.int 0)).pyStr)))]

/-- Lines 62-78 of the script: the output dict for one segment.  `text` is
trimmed, `start` and `end` are passed through unchanged (defaulting to int
`0`), and `words` is the converted word list, empty when the segment carries
no `words` key. -/
def convertSegment (s : RawSegment) : List (String × JVal) :=
  let words : List JVal :=
    match s.words with
    | some ws => ws.map (fun w => JVal.obj (convertWord w))
    | none => []
  [("text", .prim (.str ((s.text.getD "").trim))),
   ("start", .prim (s.start.getD (.int 0))),
   ("end", .prim (s.stop.getD (.int 0))),
   ("words", .arr words)]

/-- Lines 80-83 of the script: the top-level output object. -/
def convertResult (r : RawResult) : JVal :=
  .obj [("text", .prim (.str ((r.text.getD "").trim))),
        ("segments", .arr (r.segments.map (fun s => .obj (convertSegment s))))]

/-- The uniform error payload the script prints on its handled failure
paths. -/
def errorJson (msg : String) : JVal :=
  .obj [("error", .prim (.str msg)),
        ("text", .prim (.str "")),
        ("segments", .arr [])]

/-- Line 39 of the script: `os.environ.get("WHISPER_CPU_ONLY", "0") == "1"`,
with `none` for an unset variable. -/
def cpuOnlyFlag (v : Option String) : Bool :=
  (v.getD "0") == "1"

/-- Lines 42-45 of the script: the device string, given the CPU-only
environment variable and `torch.cuda.is_available()`. -/
def selectDevice (v : Option String) (cudaAvailable : Bool) : String :=
  if cpuOnlyFlag v then "cpu"
  else if cudaAvailable then "cuda" else "cpu"

/-- An exception raised by `setup_environment`, with whether it is an
`ImportError` (only that class is caught by the first handler). -/
structure ExcInfo where
  msg : String
  isImportError : Bool
deriving DecidableEq

/-- Observable outcomes of the run's external effects: whether
`setup_environment` raises, whether the imports fail, the
`WHISPER_CPU_ONLY` variable, the CUDA probe, `os.path.exists`, and whether
`whisper.load_model` and `model.transcribe` raise or what the latter
returns. -/
structure Env where
  setupExc : Option ExcInfo
  importExc : Option String
  whisperCpuOnly : Option String
  cudaAvailable : Bool
  fileExists : String → Bool
  loadModelExc : Option String
  transcribeResult : Except String RawResult

/-- The external calls the script can make, in particular the model calls
with the arguments the script passes. -/
inductive Call where
  | setupEnvironment
  | importModules
  | loadModel (name device : String)
  | transcribe (path language : String) (word_timestamps verbose fp16 : Bool)
deriving DecidableEq

/-- How a run ends: it prints one JSON object on stdout and exits with the
given code, or an exception escapes uncaught (traceback on stderr, nothing
on stdout). -/
inductive Outcome where
  | exited (out : JVal) (code : Nat)
  | crashed (msg : String)

/-- Whether the run printed a JSON object to standard output. -/
def Outcome.printsJson : Outcome → Bool
  | .exited _ _ => true
  | .crashed _ => false

/-- What the run wrote to standard output. -/
def Outcome.stdoutLine : Outcome → String
  | .exited v _ => JVal.dump v
  | .crashed _ => ""

/-- The function `transcribe_audio(audio_path, language="vi")`, as an outcome
plus the trace of external calls made.  The first `try` covers
`setup_environment()` and the imports but its handler only catches
`ImportError`; the second `try` covers everything else and catches any
`Exception`. -/
def transcribe_audio (env : Env) (audio_path : String)
    (language : String := "vi") : Outcome × List Call :=
  match env.setupExc with
  | some e =>
      if e.isImportError then
        (.exited (errorJson ("Failed to import required modules: " ++ e.msg)) 1,
         [.setupEnvironment])
      else
        (.crashed e.msg, [.setupEnvironment])
  | none =>
    match env.importExc with
    | some m =>
        (.exited (errorJson ("Failed to import required modules: " ++ m)) 1,
         [.setupEnvironment, .importModules])
    | none =>
      if env.fileExists audio_path then
        let device := selectDevice env.whisperCpuOnly env.cudaAvailable
        match env.loadModelExc with
        | some m =>
            (.exited (errorJson m) 1,
             [.setupEnvironment, .importModules, .loadModel "small" device])
        | none =>
          match env.transcribeResult with
          | .error m =>
              (.exited (errorJson m) 1,
               [.setupEnvironment, .importModules, .loadModel "small" device,
                .transcribe audio_path language true false false])
          | .ok r =>
              (.exited (convertResult r) 0,
               [.setupEnvironment, .importModules, .loadModel "small" device,
                .transcribe audio_path language true false false])
      else
        (.exited (errorJson ("Audio file not found: " ++ audio_path)) 1,
         [.setupEnvironment, .importModules])

/-- The `__main__` block: `args` is `sys.argv[1:]`.  With no positional
argument it prints the no-file error and exits 1; otherwise it calls
`transcribe_audio` with the path and the optional language (default
`"vi"`). -/
def mainProgram (env : Env) (args : List String) : Outcome × List Call :=
  match args with
  | [] => (.exited (errorJson "No audio file provided") 1, [])
  | path :: rest => transcribe_audio env path (rest.head?.getD "vi")

/-- Whether a transcription attempt ended in an exception. -/
def isErr : Except String RawResult → Bool
  | .error _ => true
  | .ok _ => false

/-- The failure modes enumerated by the error-handling contract: missing
argument, exception during environment setup, import failure, missing audio
file, or an exception during model load or transcription. -/
def failureMode (env : Env) (args : List String) : Bool :=
  match args with
  | [] => true
  | path :: _ =>
      env.setupExc.isSome || env.importExc.isSome || !env.fileExists path ||
        env.loadModelExc.isSome || isErr env.transcribeResult

/-- Side condition under which the first handler is exhaustive: any exception
out of `setup_environment` is an `ImportError`. -/
def setupRaisesOnlyImportError (env : Env) : Prop :=
  ∀ e, env.setupExc = some e → e.isImportError = true

/-- C2: whenever the CPU-only flag forces CPU, the selected device is `cpu`
and never `cuda`; otherwise the selected device is `cuda` exactly when the
runtime reports CUDA available. -/
theorem C2_device_selection (v : Option String) (cuda : Bool) :
    (cpuOnlyFlag v = true →
      selectDevice v cuda = "cpu" ∧ selectDevice v cuda ≠ "cuda") ∧
    (cpuOnlyFlag v = false →
      (selectDevice v cuda = "cuda" ↔ cuda = true)) := by
  constructor
  · intro h
    have hsel : selectDevice v cuda = "cpu" := by simp [selectDevice, h]
    exact ⟨hsel, by rw [hsel]; decide⟩
  · intro h
    cases cuda with
    | true => simp [selectDevice, h]
    | false =>
        have hsel : selectDevice v false = "cpu" := by simp [selectDevice, h]
        rw [hsel]
        simp

/-- Witness for C2 at the forced value `"1"` with CUDA available. -/
theorem C2_device_selection_witness :
    selectDevice (some "1") true = "cpu" ∧ selectDevice (some "1") true ≠ "cuda" :=
  (C2_device_selection (some "1") true).1 (by decide)

/-- C10: any value of the CPU-only variable other than exactly `"1"`
(including `"true"`, `"TRUE"`, `"yes"`, or the variable being unset) leaves
the device to be chosen by CUDA availability, exactly as if the variable
were absent. -/
theorem C10_flag_only_literal_one (v : Option String) (cuda : Bool)
    (h : v ≠ some "1") :
    selectDevice v cuda = selectDevice none cuda ∧
    selectDevice v cuda = (if cuda then "cuda" else "cpu") := by
  have hflag : cpuOnlyFlag v = false := by
    cases v with
    | none => decide
    | some s =>
        have hs : s ≠ "1" := fun hs => h (by rw [hs])
        simp [cpuOnlyFlag, hs]
  have hnone : cpuOnlyFlag (none : Option String) = false := by decide
  exact ⟨by simp [selectDevice, hflag, hnone], by simp [selectDevice, hflag]⟩

/-- Witness for C10 at the value `"true"` with CUDA available: the device is
still chosen by availability, so it is `cuda`. -/
theorem C10_flag_only_literal_one_witness :
    selectDevice (some "true") true = selectDevice none true ∧
    selectDevice (some "true") true = (if true then "cuda" else "cpu") :=
  C10_flag_only_literal_one (some "true") true (by decide)

/-- C7: with no positional arguments, the program prints the no-file error
JSON, exits 1, and makes no external call at all (no environment setup,
no import, no model call), whatever the environment. -/
theorem C7_no_arguments (env : Env) :
    mainProgram env [] = (.exited (errorJson "No audio file provided") 1, []) ∧
    (mainProgram env []).2 = [] :=
  ⟨rfl, rfl⟩

/-- C4: the reshaped output has exactly the keys `text` and `segments`; each
output segment has exactly the keys `text`, `start`, `end`, `words` (other
input fields dropped); segment and word text is trimmed; and segments and
words keep their input order (the output lists are the input lists mapped in
order). -/
theorem C4_reshape_shape (r : RawResult) (s : RawSegment) (w : RawWord) :
    (convertResult r).keys = ["text", "segments"] ∧
    (convertResult r).getField "text" =
      some (.prim (.str ((r.text.getD "").trim))) ∧
    (convertResult r).getField "segments" =
      some (.arr (r.segments.map (fun s2 => .obj (convertSegment s2)))) ∧
    (convertSegment s).map Prod.fst = ["text", "start", "end", "words"] ∧
    (convertSegment s).lookup "text" =
      some (.prim (.str ((s.text.getD "").trim))) ∧
    (convertSegment s).lookup "words" =
      some (.arr ((s.words.getD []).map (fun w2 => .obj (convertWord w2)))) ∧
    (convertWord w).map Prod.fst = ["text", "start", "end"] ∧
    (convertWord w).lookup "text" =
      some (.prim (.str ((w.text.getD "").trim))) := by
  obtain ⟨st, ss, se, sw, sx⟩ := s
  cases sw with
  | none => exact ⟨rfl, rfl, rfl, rfl, rfl, rfl, rfl, rfl⟩
  | some ws => exact ⟨rfl, rfl, rfl, rfl, rfl, rfl, rfl, rfl⟩

/-- C8: a segment with no `words` key still yields an output segment whose
`words` is the empty list and whose `text`, `start`, `end` are emitted as
usual. -/
theorem C8_segment_without_words (s : RawSegment) (h : s.words = none) :
    (convertSegment s).lookup "words" = some (.arr []) ∧
    (convertSegment s).lookup "text" =
      some (.prim (.str ((s.text.getD "").trim))) ∧
    (convertSegment s).lookup "start" = some (.prim (s.start.getD (.int 0))) ∧
    (convertSegment s).lookup "end" = some (.prim (s.stop.getD (.int 0))) := by
  obtain ⟨st, ss, se, sw, sx⟩ := s
  cases h
  exact ⟨rfl, rfl, rfl, rfl⟩

/-- A concrete segment carrying no word-level data. -/
def segNoWords : RawSegment :=
  { text := some " xin ", start := some (.float "0.0"),
    stop := some (.float "2.5"), words := none,
    extra := [("id", .int 0)] }

/-- Witness for C8 at a concrete segment with no `words` key. -/
theorem C8_segment_without_words_witness :
    (convertSegment segNoWords).lookup "words" = some (.arr []) ∧
    (convertSegment segNoWords).lookup "text" =
      some (.prim (.str ((segNoWords.text.getD "").trim))) ∧
    (convertSegment segNoWords).lookup "start" =
      some (.prim (segNoWords.start.getD (.int 0))) ∧
    (convertSegment segNoWords).lookup "end" =
      some (.prim (segNoWords.stop.getD (.int 0))) :=
  C8_segment_without_words segNoWords rfl

/-- An absent time entry defaults to the int `0`, which is numeric. -/
theorem numOpt_getD (o : Option PyVal) :
    (o.getD (PyVal.int 0)).isNum = numOpt o := by
  cases o <;> rfl

/-- C3: a word's `start`/`end` leave the reshaping as strings obtained by
Python `str` of the input value, while a segment's `start`/`end` are the
input values passed through uncoerced, hence numeric whenever the model
supplied numbers (or nothing, in which case the int default `0` is used). -/
theorem C3_time_field_types (s : RawSegment) (w : RawWord) :
    (convertWord w).lookup "start" =
      some (.prim (.str ((w.start.getD (.int 0)).pyStr))) ∧
    (convertWord w).lookup "end" =
      some (.prim (.str ((w.stop.getD (.int 0)).pyStr))) ∧
    (convertSegment s).lookup "start" = some (.prim (s.start.getD (.int 0))) ∧
    (convertSegment s).lookup "end" = some (.prim (s.stop.getD (.int 0))) ∧
    (numOpt s.start = true →
      ∃ v, (convertSegment s).lookup "start" = some (.prim v) ∧ v.isNum = true) ∧
    (numOpt s.stop = true →
      ∃ v, (convertSegment s).lookup "end" = some (.prim v) ∧ v.isNum = true) := by
  refine ⟨rfl, rfl, rfl, rfl, ?_, ?_⟩
  · intro h
    exact ⟨s.start.getD (.int 0), rfl, by rw [numOpt_getD]; exact h⟩
  · intro h
    exact ⟨s.stop.getD (.int 0), rfl, by rw [numOpt_getD]; exact h⟩

/-- A concrete word record with float times. -/
def wordWit : RawWord :=
  { text := some " hi ", start := some (.float "0.5"),
    stop := some (.float "1.25"), extra := [("probability", .float "0.9")] }

/-- A concrete segment record with float times and one word. -/
def segWit : RawSegment :=
  { text := some " xin chào ", start := some (.float "0.0"),
    stop := some (.float "2.5"), words := some [wordWit],
    extra := [("id", .int 0)] }

/-- Witness for C3 at a concrete segment and word with numeric times. -/
theorem C3_time_field_types_witness :
    numOpt segWit.start = true ∧
    (∃ v, (convertSegment segWit).lookup "start" = some (.prim v) ∧
      v.isNum = true) ∧
    (convertWord wordWit).lookup "start" =
      some (.prim (.str ((wordWit.start.getD (.int 0)).pyStr))) :=
  ⟨rfl, (C3_time_field_types segWit wordWit).2.2.2.2.1 rfl,
    (C3_time_field_types segWit wordWit).1⟩

/-- C6: when setup and imports succeed but the audio path does not exist, the
program prints the error JSON whose message mentions the path, and exits 1;
the path occurs verbatim inside the error string. -/
theorem C6_missing_file (env : Env) (path : String) (rest : List String)
    (h1 : env.setupExc = none) (h2 : env.importExc = none)
    (h3 : env.fileExists path = false) :
    (mainProgram env (path :: rest)).1 =
      .exited (errorJson ("Audio file not found: " ++ path)) 1 ∧
    List.IsInfix path.data ("Audio file not found: " ++ path).data := by
  constructor
  · simp [mainProgram, transcribe_audio, h1, h2, h3]
  · exact ⟨("Audio file not found: ").data, [], by simp⟩

/-- An environment in which everything works except that no file exists. -/
def envNoFile : Env :=
  { setupExc := none, importExc := none, whisperCpuOnly := none,
    cudaAvailable := true, fileExists := fun _ => false,
    loadModelExc := none, transcribeResult := .error "unreached" }

/-- Witness for C6 at a concrete missing path. -/
theorem C6_missing_file_witness :
    (mainProgram envNoFile ["missing.wav"]).1 =
      .exited (errorJson ("Audio file not found: " ++ "missing.wav")) 1 ∧
    List.IsInfix ("missing.wav").data
      ("Audio file not found: " ++ "missing.wav").data :=
  C6_missing_file envNoFile "missing.wav" [] rfl rfl rfl

/-- Characters at code point 32 and above, other than the quote and the
backslash, are rendered as themselves; in particular every non-ASCII
character is preserved unescaped. -/
theorem escChar_high (c : Char) (h : 128 ≤ c.val.toNat) :
    escChar c = String.singleton c := by
  have h1 : ¬(c = '\\') := by rintro rfl; revert h; decide
  have h2 : ¬(c = '\"') := by rintro rfl; revert h; decide
  have h3 : ¬(c = '\n') := by rintro rfl; revert h; decide
  have h4 : ¬(c = '\t') := by rintro rfl; revert h; decide
  have h5 : ¬(c = '\r') := by rintro rfl; revert h; decide
  have h6 : ¬(c.val.toNat = 8) := by omega
  have h7 : ¬(c.val.toNat = 12) := by omega
  have h8 : ¬(c.val.toNat < 32) := by omega
  simp [escChar, h1, h2, h3, h4, h5, h6, h7, h8]

/-- C5: a successful run exits 0 and writes exactly the `json.dumps` of the
reshaped result — one JSON object whose keys are `text` and `segments` —
to standard output, and the serializer keeps every non-ASCII character
unescaped. -/
theorem C5_success_output (env : Env) (path : String) (rest : List String)
    (r : RawResult)
    (h1 : env.setupExc = none) (h2 : env.importExc = none)
    (h3 : env.fileExists path = true) (h4 : env.loadModelExc = none)
    (h5 : env.transcribeResult = .ok r) :
    (mainProgram env (path :: rest)).1 = .exited (convertResult r) 0 ∧
    ((mainProgram env (path :: rest)).1).stdoutLine =
      JVal.dump (convertResult r) ∧
    (convertResult r).keys = ["text", "segments"] ∧
    ∀ c : Char, 128 ≤ c.val.toNat → escChar c = String.singleton c := by
  have hrun : (mainProgram env (path :: rest)).1 = .exited (convertResult r) 0 := by
    simp [mainProgram, transcribe_audio, h1, h2, h3, h4, h5]
  exact ⟨hrun, by rw [hrun]; rfl, rfl, fun c hc => escChar_high c hc⟩

/-- A concrete transcription result with non-ASCII text. -/
def resWit : RawResult :=
  { text := some " xin chào thế giới ", segments := [segWit, segNoWords],
    extra := [("language", .str "vi")] }

/-- An environment in which every step of the run succeeds. -/
def envOk : Env :=
  { setupExc := none, importExc := none, whisperCpuOnly := none,
    cudaAvailable := false, fileExists := fun _ => true,
    loadModelExc := none, transcribeResult := .ok resWit }

/-- Witness for C5 at a concrete successful run, including a concrete
non-ASCII character passed through the serializer unescaped. -/
theorem C5_success_output_witness :
    (mainProgram envOk ["a.wav"]).1 = .exited (convertResult resWit) 0 ∧
    ((mainProgram envOk ["a.wav"]).1).stdoutLine =
      JVal.dump (convertResult resWit) ∧
    escChar 'à' = String.singleton 'à' :=
  ⟨(C5_success_output envOk "a.wav" [] resWit rfl rfl rfl rfl rfl).1,
   (C5_success_output envOk "a.wav" [] resWit rfl rfl rfl rfl rfl).2.1,
   (C5_success_output envOk "a.wav" [] resWit rfl rfl rfl rfl rfl).2.2.2 'à'
     (by decide)⟩

/-- The invariant every emitted external call satisfies: a model load always
names the `small` model on the selected device, and a transcription call
always has word timestamps on and verbose and fp16 off. -/
def goodCall (env : Env) : Call → Prop
  | .loadModel name device =>
      name = "small" ∧ device = selectDevice env.whisperCpuOnly env.cudaAvailable
  | .transcribe _ _ wt vb fp => wt = true ∧ vb = false ∧ fp = false
  | _ => True

/-- Every call in the trace of any run satisfies `goodCall`. -/
theorem calls_goodCall (env : Env) (args : List String) :
    ∀ c ∈ (mainProgram env args).2, goodCall env c := by
  intro c hc
  cases args with
  | nil => simp [mainProgram] at hc
  | cons path rest =>
    simp only [mainProgram] at hc
    unfold transcribe_audio at hc
    cases hs : env.setupExc with
    | some e =>
        rw [hs] at hc
        cases he : e.isImportError <;> simp [he] at hc <;>
          simp [hc, goodCall]
    | none =>
        rw [hs] at hc
        cases hi : env.importExc with
        | some m =>
            rw [hi] at hc
            simp at hc
            rcases hc with hc | hc <;> simp [hc, goodCall]
        | none =>
            rw [hi] at hc
            cases hf : env.fileExists path with
            | false =>
                rw [hf] at hc
                simp at hc
                rcases hc with hc | hc <;> simp [hc, goodCall]
            | true =>
                rw [hf] at hc
                cases hl : env.loadModelExc with
                | some m =>
                    rw [hl] at hc
                    simp at hc
                    rcases hc with hc | hc | hc <;> simp [hc, goodCall]
                | none =>
                    rw [hl] at hc
                    cases ht : env.transcribeResult with
                    | error m =>
                        rw [ht] at hc
                        simp at hc
                        rcases hc with hc | hc | hc | hc <;> simp [hc, goodCall]
                    | ok r =>
                        rw [ht] at hc
                        simp at hc
                        rcases hc with hc | hc | hc | hc <;> simp [hc, goodCall]

/-- C9: every model load the program ever performs is of the fixed size
`small` on the selected device, and every transcription call it ever makes
has word-level timestamps enabled, verbose disabled and fp16 disabled. -/
theorem C9_model_call_arguments (env : Env) (args : List String) :
    (∀ name device, Call.loadModel name device ∈ (mainProgram env args).2 →
        name = "small" ∧
        device = selectDevice env.whisperCpuOnly env.cudaAvailable) ∧
    (∀ p l wt vb fp, Call.transcribe p l wt vb fp ∈ (mainProgram env args).2 →
        wt = true ∧ vb = false ∧ fp = false) := by
  constructor
  · intro name device h
    have hg := calls_goodCall env args _ h
    simpa [goodCall] using hg
  · intro p l wt vb fp h
    have hg := calls_goodCall env args _ h
    simpa [goodCall] using hg

/-- Witness for C9: in the concrete successful run both calls occur, with the
stated arguments. -/
theorem C9_model_call_arguments_witness :
    ("small" = "small" ∧
      "cpu" = selectDevice envOk.whisperCpuOnly envOk.cudaAvailable) ∧
    (true = true ∧ false = false ∧ false = false) :=
  ⟨(C9_model_call_arguments envOk ["a.wav"]).1 "small" "cpu"
      (by simp [mainProgram, transcribe_audio, envOk, selectDevice, cpuOnlyFlag]),
   (C9_model_call_arguments envOk ["a.wav"]).2 "a.wav" "vi" true false false
      (by simp [mainProgram, transcribe_audio, envOk, selectDevice, cpuOnlyFlag])⟩

/-- C1 (amended): under the side condition that `setup_environment` can only
raise `ImportError`, every failure mode — missing argument, setup failure,
failed import, missing audio file, or an exception during model load or
transcription — ends with the uniform error JSON on standard output and
exit code 1. -/
theorem C1_failures_reported (env : Env) (args : List String)
    (hsetup : setupRaisesOnlyImportError env)
    (hfail : failureMode env args = true) :
    ∃ msg, (mainProgram env args).1 = .exited (errorJson msg) 1 := by
  cases args with
  | nil => exact ⟨"No audio file provided", rfl⟩
  | cons path rest =>
    simp only [mainProgram]
    unfold transcribe_audio
    cases hs : env.setupExc with
    | some e =>
        have himp := hsetup e hs
        exact ⟨"Failed to import required modules: " ++ e.msg, by simp [himp]⟩
    | none =>
        cases hi : env.importExc with
        | some m => exact ⟨"Failed to import required modules: " ++ m, by simp⟩
        | none =>
            cases hf : env.fileExists path with
            | false => exact ⟨"Audio file not found: " ++ path, by simp⟩
            | true =>
                cases hl : env.loadModelExc with
                | some m => exact ⟨m, by simp⟩
                | none =>
                    cases ht : env.transcribeResult with
                    | error m => exact ⟨m, by simp⟩
                    | ok r =>
                        exfalso
                        simp [failureMode, hs, hi, hf, hl, ht, isErr] at hfail

/-- An environment whose setup raises an import failure. -/
def envImportFail : Env :=
  { setupExc := none, importExc := some "No module named torch",
    whisperCpuOnly := none, cudaAvailable := false,
    fileExists := fun _ => true, loadModelExc := none,
    transcribeResult := .error "unreached" }

/-- Witness for the amended C1 at a concrete import failure. -/
theorem C1_failures_reported_witness :
    failureMode envImportFail ["a.wav"] = true ∧
    ∃ msg, (mainProgram envImportFail ["a.wav"]).1 = .exited (errorJson msg) 1 :=
  ⟨rfl, C1_failures_reported envImportFail ["a.wav"] (fun _ h => nomatch h) rfl⟩

/-- An environment whose `setup_environment` raises an exception that is not
an `ImportError` — e.g. `os.listdir` raising `FileNotFoundError` when the
`venv/lib` directory next to the script does not exist. -/
def envSetupCrash : Env :=
  { setupExc := some { msg := "boom", isImportError := false },
    importExc := none, whisperCpuOnly := none, cudaAvailable := false,
    fileExists := fun _ => true, loadModelExc := none,
    transcribeResult := .error "unreached" }

/-- C1 as stated is false: an exception raised during environment setup that
is not an `ImportError` is a failure mode, yet the run ends with an uncaught
exception and prints no JSON object to standard output at all. -/
theorem C1_counterexample :
    failureMode envSetupCrash ["a.wav"] = true ∧
    (mainProgram envSetupCrash ["a.wav"]).1 = .crashed "boom" ∧
    ((mainProgram envSetupCrash ["a.wav"]).1).printsJson = false :=
  ⟨rfl, rfl, rfl⟩
